import Mathlib

/-!
Shallow embedding of the licitation query service in src/main.py.

Modelling conventions:
* Python str is Lean String; str.lower()/str.upper() are modelled by mapping
  Char.toLower/Char.toUpper over the code points (faithful on the ASCII
  range, where every string constant of the program lives), and the
  substring test x in y by List.IsInfix on the code-point lists.
* Python date is encoded as a Nat of shape yyyymmdd, so that the calendar
  order used by the comparisons in the source coincides with Nat order.
* Monetary float values are modelled as rationals; every monetary constant
  of the program is a whole number of reais, hence exactly representable.
  The float('inf') default taken by the maximum-value filter for a record
  without valor_estimado is modelled by making that predicate false for
  such records (inf <= m is false for every finite bound m).
* Python list.sort(key, reverse) is a stable sort; it is modelled by a
  structurally recursive stable insertion sort on the corresponding
  boolean order (ties keep their original relative order).
* The created_at/updated_at timestamps (datetime.now()) are left out of
  the record model: they are nondeterministic and no claim mentions them.
-/

/-- Enum TipoLicitacao, src/main.py lines 17-25. -/
inductive TipoLicitacao
  | convite
  | tomada_precos
  | concorrencia
  | pregao
  | concurso
  | leilao
  | rdc
  | consulta_publica
deriving DecidableEq

/-- Python .value string of a TipoLicitacao member. -/
def TipoLicitacao.val : TipoLicitacao → String
  | .convite => "convite"
  | .tomada_precos => "tomada_precos"
  | .concorrencia => "concorrencia"
  | .pregao => "pregao"
  | .concurso => "concurso"
  | .leilao => "leilao"
  | .rdc => "rdc"
  | .consulta_publica => "consulta_publica"

/-- Enum StatusLicitacao, src/main.py lines 27-32. -/
inductive StatusLicitacao
  | aberta
  | em_andamento
  | encerrada
  | suspensa
  | cancelada
deriving DecidableEq

/-- Python .value string of a StatusLicitacao member. -/
def StatusLicitacao.val : StatusLicitacao → String
  | .aberta => "aberta"
  | .em_andamento => "em_andamento"
  | .encerrada => "encerrada"
  | .suspensa => "suspensa"
  | .cancelada => "cancelada"

/-- Enum UF, src/main.py lines 34-61 (27 subnational codes). -/
inductive UF
  | AC | AL | AP | AM | BA | CE | DF | ES | GO | MA | MT | MS | MG | PA
  | PB | PR | PE | PI | RJ | RN | RS | RO | RR | SC | SP | SE | TO
deriving DecidableEq

/-- Python .value string of a UF member. -/
def UF.val : UF → String
  | .AC => "AC" | .AL => "AL" | .AP => "AP" | .AM => "AM" | .BA => "BA"
  | .CE => "CE" | .DF => "DF" | .ES => "ES" | .GO => "GO" | .MA => "MA"
  | .MT => "MT" | .MS => "MS" | .MG => "MG" | .PA => "PA" | .PB => "PB"
  | .PR => "PR" | .PE => "PE" | .PI => "PI" | .RJ => "RJ" | .RN => "RN"
  | .RS => "RS" | .RO => "RO" | .RR => "RR" | .SC => "SC" | .SP => "SP"
  | .SE => "SE" | .TO => "TO"

/-- Calendar dates, encoded yyyymmdd so Nat order is calendar order. -/
abbrev DataCal := Nat

/-- Monetary amounts (Python floats holding exact decimal values). -/
abbrev Valor := Rat

/-- Python str.lower(), code point by code point. -/
def str_lower (s : String) : String := ⟨s.data.map Char.toLower⟩

/-- Python str.upper(), code point by code point. -/
def str_upper (s : String) : String := ⟨s.data.map Char.toUpper⟩

/-- Python substring test: agulha in palheiro. -/
def str_contem (agulha palheiro : String) : Bool :=
  decide (List.IsInfix agulha.data palheiro.data)

/-- One canonical licitation record (the dict shape handled by
filtrar_licitacoes; mirrors the keys of the MOCK_LICITACOES dicts,
src/main.py lines 257-343, minus the two timestamps). -/
structure Licitacao where
  id : Nat
  numero : String
  tipo : TipoLicitacao
  objeto : String
  orgao : String
  status : StatusLicitacao
  valor_estimado : Option Valor
  data_abertura : DataCal
  data_encerramento : Option DataCal
  uf : UF
  cidade : String
  modalidade_participacao : Option String
  link_edital : Option String
deriving DecidableEq

/-- The nine optional filter criteria (FiltrosLicitacao, src/main.py
lines 82-91, also the keyword arguments of filtrar_licitacoes). -/
structure Filtros where
  tipos : Option (List TipoLicitacao)
  status : Option (List StatusLicitacao)
  ufs : Option (List UF)
  cidades : Option (List String)
  valor_min : Option Valor
  valor_max : Option Valor
  data_abertura_inicio : Option DataCal
  data_abertura_fim : Option DataCal
  texto_busca : Option String
deriving DecidableEq

/-- No criterion given (all keyword arguments left at None). -/
def filtros_vazios : Filtros := ⟨none, none, none, none, none, none, none, none, none⟩

/-- Step 1 of filtrar_licitacoes (src/main.py 381-383): if tipos:
keep records whose tipo is in the list.  Python truthiness: None and
the empty list both skip the step. -/
def filtro_tipos (f : Filtros) (l : List Licitacao) : List Licitacao :=
  match f.tipos with
  | some ts => if ts.isEmpty then l else l.filter (fun x => ts.contains x.tipo)
  | none => l

/-- Step 2 (src/main.py 385-387): filter by status. -/
def filtro_status (f : Filtros) (l : List Licitacao) : List Licitacao :=
  match f.status with
  | some ss => if ss.isEmpty then l else l.filter (fun x => ss.contains x.status)
  | none => l

/-- Step 3 (src/main.py 389-391): filter by UF. -/
def filtro_ufs (f : Filtros) (l : List Licitacao) : List Licitacao :=
  match f.ufs with
  | some us => if us.isEmpty then l else l.filter (fun x => us.contains x.uf)
  | none => l

/-- Step 4 (src/main.py 393-396): case-insensitive city membership. -/
def filtro_cidades (f : Filtros) (l : List Licitacao) : List Licitacao :=
  match f.cidades with
  | some cs =>
      if cs.isEmpty then l
      else l.filter (fun x => (cs.map str_lower).contains (str_lower x.cidade))
  | none => l

/-- Step 5 (src/main.py 398-400): valor_estimado >= valor_min, the
absent value defaulting to 0.  The guard is an explicit is-not-None
test, so a bound of 0 is applied. -/
def filtro_valor_min (f : Filtros) (l : List Licitacao) : List Licitacao :=
  match f.valor_min with
  | some m => l.filter (fun x => decide (x.valor_estimado.getD 0 ≥ m))
  | none => l

/-- Step 6 (src/main.py 402-404): valor_estimado <= valor_max, the
absent value defaulting to float('inf'), which fails the test against
every finite bound. -/
def filtro_valor_max (f : Filtros) (l : List Licitacao) : List Licitacao :=
  match f.valor_max with
  | some m =>
      l.filter (fun x =>
        match x.valor_estimado with
        | some v => decide (v ≤ m)
        | none => false)
  | none => l

/-- Step 7 (src/main.py 406-408): data_abertura >= inicio. -/
def filtro_data_inicio (f : Filtros) (l : List Licitacao) : List Licitacao :=
  match f.data_abertura_inicio with
  | some d => l.filter (fun x => decide (x.data_abertura ≥ d))
  | none => l

/-- Step 8 (src/main.py 410-412): data_abertura <= fim. -/
def filtro_data_fim (f : Filtros) (l : List Licitacao) : List Licitacao :=
  match f.data_abertura_fim with
  | some d => l.filter (fun x => decide (x.data_abertura ≤ d))
  | none => l

/-- Step 9 (src/main.py 414-422): case-insensitive substring search in
objeto, orgao or numero.  Python truthiness: None and the empty string
both skip the step. -/
def filtro_texto (f : Filtros) (l : List Licitacao) : List Licitacao :=
  match f.texto_busca with
  | some t =>
      if t.isEmpty then l
      else
        l.filter (fun x =>
          str_contem (str_lower t) (str_lower x.objeto)
          || str_contem (str_lower t) (str_lower x.orgao)
          || str_contem (str_lower t) (str_lower x.numero))
  | none => l

/-- The filter cascade of filtrar_licitacoes in its fixed source order
(src/main.py 379-422), before pagination. -/
def aplicar_filtros (f : Filtros) (licitacoes : List Licitacao) : List Licitacao :=
  filtro_texto f (filtro_data_fim f (filtro_data_inicio f (filtro_valor_max f
    (filtro_valor_min f (filtro_cidades f (filtro_ufs f (filtro_status f
      (filtro_tipos f licitacoes))))))))

/-- filtrar_licitacoes (src/main.py 364-428): the filter cascade, then
total = len(resultado), then the page resultado[offset : offset+limite].
The Python defaults are limite=100, offset=0; callers pass them
explicitly here. -/
def filtrar_licitacoes (licitacoes : List Licitacao) (f : Filtros)
    (limite offset : Nat) : List Licitacao × Nat :=
  let resultado := aplicar_filtros f licitacoes
  (((resultado.drop offset).take limite), resultado.length)

/-- Mock record id 1 (src/main.py 258-274). -/
def licitacao_mock_1 : Licitacao :=
  ⟨1, "001/2024", .pregao, "Aquisição de equipamentos de informática",
   "Prefeitura Municipal de São Paulo", .aberta, some 150000, 20241015,
   some 20241115, .SP, "São Paulo", some "Presencial/Online",
   some "https://exemplo.com/edital1"⟩

/-- Mock record id 2 (src/main.py 275-291). -/
def licitacao_mock_2 : Licitacao :=
  ⟨2, "002/2024", .concorrencia, "Construção de escola municipal",
   "Governo do Estado do Rio de Janeiro", .em_andamento, some 2500000, 20240920,
   some 20241220, .RJ, "Rio de Janeiro", some "Presencial",
   some "https://exemplo.com/edital2"⟩

/-- Mock record id 3 (src/main.py 292-308). -/
def licitacao_mock_3 : Licitacao :=
  ⟨3, "003/2024", .tomada_precos, "Serviços de limpeza urbana",
   "Prefeitura de Brasília", .aberta, some 800000, 20241010,
   some 20241130, .DF, "Brasília", some "Online",
   some "https://exemplo.com/edital3"⟩

/-- Mock record id 4 (src/main.py 309-325). -/
def licitacao_mock_4 : Licitacao :=
  ⟨4, "004/2024", .pregao, "Aquisição de medicamentos",
   "Hospital Regional de Salvador", .aberta, some 500000, 20241025,
   some 20241215, .BA, "Salvador", some "Online",
   some "https://exemplo.com/edital4"⟩

/-- Mock record id 5 (src/main.py 326-342). -/
def licitacao_mock_5 : Licitacao :=
  ⟨5, "005/2024", .rdc, "Construção de ponte",
   "DNIT - Departamento Nacional de Infraestrutura", .encerrada, some 15000000, 20240801,
   some 20240930, .MG, "Belo Horizonte", some "Presencial",
   some "https://exemplo.com/edital5"⟩

/-- MOCK_LICITACOES (src/main.py 257-343). -/
def MOCK_LICITACOES : List Licitacao :=
  [licitacao_mock_1, licitacao_mock_2, licitacao_mock_3, licitacao_mock_4, licitacao_mock_5]

/-- Stable insertion of one element into a list against a boolean
order: the new element goes before the first element b with le a b. -/
def insere_ordenado (le : Licitacao → Licitacao → Bool) (a : Licitacao) :
    List Licitacao → List Licitacao
  | [] => [a]
  | b :: l => if le a b then a :: b :: l else b :: insere_ordenado le a l

/-- Stable sort against a boolean order.  With a total order le this is
the unique stable sort, hence the model of Python list.sort. -/
def ordena_estavel (le : Licitacao → Licitacao → Bool) :
    List Licitacao → List Licitacao
  | [] => []
  | a :: l => insere_ordenado le a (ordena_estavel le l)

/-- Lexicographic order on code-point lists: the order Python uses to
compare strings. -/
def lex_le : List Char → List Char → Bool
  | [], _ => true
  | _ :: _, [] => false
  | a :: xs, b :: ys => if a < b then true else if b < a then false else lex_le xs ys

/-- The sort block of obter_licitacoes (src/main.py 696-703): stable
sort of the already-computed list by the chosen key; reverse=True is a
stable sort by the opposite key order. -/
def ordenar_campo (campo : String) (ordem_desc : Bool) (l : List Licitacao) :
    List Licitacao :=
  if campo = "data_abertura" then
    ordena_estavel (fun a b =>
      if ordem_desc then decide (b.data_abertura ≤ a.data_abertura)
      else decide (a.data_abertura ≤ b.data_abertura)) l
  else if campo = "valor_estimado" then
    ordena_estavel (fun a b =>
      if ordem_desc then decide (b.valor_estimado.getD 0 ≤ a.valor_estimado.getD 0)
      else decide (a.valor_estimado.getD 0 ≤ b.valor_estimado.getD 0)) l
  else if campo = "numero" then
    ordena_estavel (fun a b =>
      if ordem_desc then lex_le b.numero.data a.numero.data
      else lex_le a.numero.data b.numero.data) l
  else l

/-- The GET /licitacoes handler obter_licitacoes (src/main.py 636-725),
restricted to its data pipeline: filtrar_licitacoes (which paginates),
then the in-place sort of the returned page when ordenar_por is truthy
and in the allow-list, then (dados, total).  The generic collection is
a parameter; the endpoint passes MOCK_LICITACOES. -/
def obter_licitacoes (licitacoes : List Licitacao) (f : Filtros)
    (limite offset : Nat) (ordenar_por : Option String) (ordem_desc : Bool) :
    List Licitacao × Nat :=
  let r := filtrar_licitacoes licitacoes f limite offset
  let dados :=
    match ordenar_por with
    | some campo =>
        if campo ∈ ["data_abertura", "valor_estimado", "numero"] then
          ordenar_campo campo ordem_desc r.1
        else r.1
    | none => r.1
  (dados, r.2)

/-- The POST /licitacoes/buscar handler buscar_licitacoes (src/main.py
821-845): filtrar_licitacoes on the mock set with the filter document
and the default limite=100, offset=0; no sorting. -/
def buscar_licitacoes (filtros : Filtros) : List Licitacao × Nat :=
  filtrar_licitacoes MOCK_LICITACOES filtros 100 0

/-- One counting step of the Python idiom d[k] = d.get(k, 0) + 1 on an
insertion-ordered dict, modelled as an association list: bump the first
entry with that key, else append a fresh entry at the end. -/
def conta_chave (m : List (String × Nat)) (k : String) : List (String × Nat) :=
  match m with
  | [] => [(k, 1)]
  | (k1, v) :: resto => if k1 = k then (k1, v + 1) :: resto else (k1, v) :: conta_chave resto k

/-- Grouped occurrence counts of a string projection over a record list
(the three counting loops of obter_estatisticas). -/
def contar_por (proj : Licitacao → String) (ls : List Licitacao) : List (String × Nat) :=
  ls.foldl (fun m x => conta_chave m (proj x)) []

/-- The response shape of GET /estatisticas. -/
structure Estatisticas where
  total_licitacoes : Nat
  valor_total_estimado : Valor
  distribuicao_por_tipo : List (String × Nat)
  distribuicao_por_status : List (String × Nat)
  distribuicao_por_uf : List (String × Nat)
deriving DecidableEq

/-- obter_estatisticas (src/main.py 785-818) over the mock set: total
count, the three grouped counts keyed by enum .value strings, and the
sum of valor_estimado with absent values counting 0. -/
def obter_estatisticas : Estatisticas :=
  ⟨MOCK_LICITACOES.length,
   MOCK_LICITACOES.foldl (fun acc l => acc + l.valor_estimado.getD 0) 0,
   contar_por (fun l => l.tipo.val) MOCK_LICITACOES,
   contar_por (fun l => l.status.val) MOCK_LICITACOES,
   contar_por (fun l => l.uf.val) MOCK_LICITACOES⟩

/-- A loosely typed JSON scalar, the value type of an upstream PNCP
item: a string, a number, or null/absent-style data.  The normalizer
only ever calls .upper() on these, which succeeds exactly on strings. -/
inductive RawValue
  | str (s : String)
  | num (q : Rat)
  | null
deriving DecidableEq

/-- One raw upstream item: a JSON object, i.e. a key/value map.
item.get(k, d) is List.lookup with a default. -/
abbrev RawItem := List (String × RawValue)

/-- Python item.get(chave, padrao). -/
def dict_get (item : RawItem) (chave : String) (padrao : RawValue) : RawValue :=
  (item.lookup chave).getD padrao

/-- mapear_tipo_pncp (src/main.py 227-240): fixed 7-entry uppercase
lookup table, defaulting to pregao. -/
def mapear_tipo_pncp (modalidade : String) : TipoLicitacao :=
  match str_upper modalidade with
  | "PREGAO" => .pregao
  | "CONCORRENCIA" => .concorrencia
  | "TOMADA_PRECOS" => .tomada_precos
  | "CONVITE" => .convite
  | "RDC" => .rdc
  | "CONCURSO" => .concurso
  | "LEILAO" => .leilao
  | _ => .pregao

/-- mapear_status_pncp (src/main.py 242-253): fixed 5-entry uppercase
lookup table, defaulting to aberta. -/
def mapear_status_pncp (situacao : String) : StatusLicitacao :=
  match str_upper situacao with
  | "ABERTA" => .aberta
  | "EM_ANDAMENTO" => .em_andamento
  | "ENCERRADA" => .encerrada
  | "SUSPENSA" => .suspensa
  | "CANCELADA" => .cancelada
  | _ => .aberta

/-- The normalized record dict built per item by normalizar_dados_pncp
(src/main.py 203-219), minus the two datetime.now() timestamps.  Most
fields keep the raw value taken from the item; tipo and status go
through the two mapping tables. -/
structure LicitacaoNormalizada where
  id : RawValue
  numero : RawValue
  tipo : TipoLicitacao
  objeto : RawValue
  orgao : RawValue
  status : StatusLicitacao
  valor_estimado : RawValue
  data_abertura : RawValue
  data_encerramento : RawValue
  uf : RawValue
  cidade : RawValue
  modalidade_participacao : RawValue
  link_edital : RawValue
deriving DecidableEq

/-- Extraction of one item inside the try of normalizar_dados_pncp.
Every field is read with item.get and a fallback default, so a missing
key never fails; the only operations that can raise are the two
.upper() calls inside the mapping helpers, which fail exactly when the
corresponding key is present with a non-string value.  none models the
caught per-item exception that makes the loop skip the item. -/
def extrair_item_pncp (item : RawItem) : Option LicitacaoNormalizada :=
  match dict_get item "modalidadeContratacao" (.str ""),
        dict_get item "situacaoLicitacao" (.str "") with
  | .str modalidade, .str situacao =>
      some ⟨dict_get item "sequencialLicitacao" (.num 0),
            dict_get item "numeroLicitacao" (.str ""),
            mapear_tipo_pncp modalidade,
            dict_get item "objetoLicitacao" (.str ""),
            dict_get item "nomeOrgao" (.str ""),
            mapear_status_pncp situacao,
            dict_get item "valorEstimado" (.num 0),
            dict_get item "dataAbertura" (.str ""),
            dict_get item "dataEncerramento" .null,
            dict_get item "ufOrgao" (.str ""),
            dict_get item "cidadeOrgao" (.str ""),
            dict_get item "modalidadeContratacao" (.str ""),
            dict_get item "linkEdital" .null⟩
  | _, _ => none

/-- A raw PNCP payload: dados_pncp.get("data", []) reads the item list,
absent meaning the empty list. -/
structure PayloadPNCP where
  data : Option (List RawItem)
deriving DecidableEq

/-- normalizar_dados_pncp (src/main.py 195-225): map extraction over
the items in order, skipping the items whose extraction raises. -/
def normalizar_dados_pncp (dados_pncp : PayloadPNCP) : List LicitacaoNormalizada :=
  (dados_pncp.data.getD []).filterMap extrair_item_pncp

/-- The recognized item keys read by extrair_item_pncp. -/
def chaves_pncp : List String :=
  ["sequencialLicitacao", "numeroLicitacao", "modalidadeContratacao",
   "objetoLicitacao", "nomeOrgao", "situacaoLicitacao", "valorEstimado",
   "dataAbertura", "dataEncerramento", "ufOrgao", "cidadeOrgao", "linkEdital"]

/-- The record produced for an item carrying none of the recognized
keys: every field falls back to its item.get default. -/
def registro_fallback : LicitacaoNormalizada :=
  ⟨.num 0, .str "", .pregao, .str "", .str "", .aberta, .num 0, .str "",
   .null, .str "", .str "", .str "", .null⟩

/-- Predicate form of step 1: absent or empty tipos accepts everything. -/
def pred_tipos (f : Filtros) (x : Licitacao) : Bool :=
  match f.tipos with
  | some ts => ts.isEmpty || ts.contains x.tipo
  | none => true

/-- Predicate form of step 2. -/
def pred_status (f : Filtros) (x : Licitacao) : Bool :=
  match f.status with
  | some ss => ss.isEmpty || ss.contains x.status
  | none => true

/-- Predicate form of step 3. -/
def pred_ufs (f : Filtros) (x : Licitacao) : Bool :=
  match f.ufs with
  | some us => us.isEmpty || us.contains x.uf
  | none => true

/-- Predicate form of step 4. -/
def pred_cidades (f : Filtros) (x : Licitacao) : Bool :=
  match f.cidades with
  | some cs => cs.isEmpty || (cs.map str_lower).contains (str_lower x.cidade)
  | none => true

/-- Predicate form of step 5. -/
def pred_valor_min (f : Filtros) (x : Licitacao) : Bool :=
  match f.valor_min with
  | some m => decide (x.valor_estimado.getD 0 ≥ m)
  | none => true

/-- Predicate form of step 6. -/
def pred_valor_max (f : Filtros) (x : Licitacao) : Bool :=
  match f.valor_max with
  | some m =>
      match x.valor_estimado with
      | some v => decide (v ≤ m)
      | none => false
  | none => true

/-- Predicate form of step 7. -/
def pred_data_inicio (f : Filtros) (x : Licitacao) : Bool :=
  match f.data_abertura_inicio with
  | some d => decide (x.data_abertura ≥ d)
  | none => true

/-- Predicate form of step 8. -/
def pred_data_fim (f : Filtros) (x : Licitacao) : Bool :=
  match f.data_abertura_fim with
  | some d => decide (x.data_abertura ≤ d)
  | none => true

/-- Predicate form of step 9. -/
def pred_texto_busca (f : Filtros) (x : Licitacao) : Bool :=
  match f.texto_busca with
  | some t =>
      t.isEmpty
      || (str_contem (str_lower t) (str_lower x.objeto)
          || str_contem (str_lower t) (str_lower x.orgao)
          || str_contem (str_lower t) (str_lower x.numero))
  | none => true

/-- Conjunction of the nine step predicates: a record survives the
whole cascade exactly when this holds. -/
def passa_filtros (f : Filtros) (x : Licitacao) : Bool :=
  pred_tipos f x && pred_status f x && pred_ufs f x && pred_cidades f x
    && pred_valor_min f x && pred_valor_max f x && pred_data_inicio f x
    && pred_data_fim f x && pred_texto_busca f x

theorem filtro_tipos_eq (f : Filtros) (l : List Licitacao) :
    filtro_tipos f l = l.filter (pred_tipos f) := by
  unfold filtro_tipos pred_tipos
  match f.tipos with
  | none => simp
  | some ts => by_cases h : ts.isEmpty <;> simp [h]

theorem filtro_status_eq (f : Filtros) (l : List Licitacao) :
    filtro_status f l = l.filter (pred_status f) := by
  unfold filtro_status pred_status
  match f.status with
  | none => simp
  | some ss => by_cases h : ss.isEmpty <;> simp [h]

theorem filtro_ufs_eq (f : Filtros) (l : List Licitacao) :
    filtro_ufs f l = l.filter (pred_ufs f) := by
  unfold filtro_ufs pred_ufs
  match f.ufs with
  | none => simp
  | some us => by_cases h : us.isEmpty <;> simp [h]

theorem filtro_cidades_eq (f : Filtros) (l : List Licitacao) :
    filtro_cidades f l = l.filter (pred_cidades f) := by
  unfold filtro_cidades pred_cidades
  match f.cidades with
  | none => simp
  | some cs => by_cases h : cs.isEmpty <;> simp [h]

theorem filtro_valor_min_eq (f : Filtros) (l : List Licitacao) :
    filtro_valor_min f l = l.filter (pred_valor_min f) := by
  unfold filtro_valor_min pred_valor_min
  match f.valor_min with
  | none => simp
  | some m => rfl

theorem filtro_valor_max_eq (f : Filtros) (l : List Licitacao) :
    filtro_valor_max f l = l.filter (pred_valor_max f) := by
  unfold filtro_valor_max pred_valor_max
  match f.valor_max with
  | none => simp
  | some m => rfl

theorem filtro_data_inicio_eq (f : Filtros) (l : List Licitacao) :
    filtro_data_inicio f l = l.filter (pred_data_inicio f) := by
  unfold filtro_data_inicio pred_data_inicio
  match f.data_abertura_inicio with
  | none => simp
  | some d => rfl

theorem filtro_data_fim_eq (f : Filtros) (l : List Licitacao) :
    filtro_data_fim f l = l.filter (pred_data_fim f) := by
  unfold filtro_data_fim pred_data_fim
  match f.data_abertura_fim with
  | none => simp
  | some d => rfl

theorem filtro_texto_eq (f : Filtros) (l : List Licitacao) :
    filtro_texto f l = l.filter (pred_texto_busca f) := by
  unfold filtro_texto pred_texto_busca
  match f.texto_busca with
  | none => simp
  | some t => by_cases h : t.isEmpty <;> simp [h]

/-- The nine-step cascade is a single filter by the conjunction of the
nine predicates. -/
theorem aplicar_filtros_eq_filter (f : Filtros) (R : List Licitacao) :
    aplicar_filtros f R = R.filter (passa_filtros f) := by
  unfold aplicar_filtros
  rw [filtro_tipos_eq, filtro_status_eq, filtro_ufs_eq, filtro_cidades_eq,
    filtro_valor_min_eq, filtro_valor_max_eq, filtro_data_inicio_eq,
    filtro_data_fim_eq, filtro_texto_eq]
  simp only [List.filter_filter]
  refine List.filter_congr (fun x _ => ?_)
  unfold passa_filtros
  ac_rfl

/-- passa_filtros with no criterion present accepts every record. -/
theorem passa_filtros_vazios (x : Licitacao) : passa_filtros filtros_vazios x = true := rfl

/-- Name of one of the nine narrowing steps of filtrar_licitacoes. -/
inductive EtapaFiltro
  | tipos | status | ufs | cidades | valor_min | valor_max
  | data_inicio | data_fim | texto
deriving DecidableEq

/-- The narrowing step named by an EtapaFiltro. -/
def aplicar_etapa (f : Filtros) (e : EtapaFiltro) (l : List Licitacao) : List Licitacao :=
  match e with
  | .tipos => filtro_tipos f l
  | .status => filtro_status f l
  | .ufs => filtro_ufs f l
  | .cidades => filtro_cidades f l
  | .valor_min => filtro_valor_min f l
  | .valor_max => filtro_valor_max f l
  | .data_inicio => filtro_data_inicio f l
  | .data_fim => filtro_data_fim f l
  | .texto => filtro_texto f l

/-- The predicate of the step named by an EtapaFiltro. -/
def etapa_pred (f : Filtros) (e : EtapaFiltro) (x : Licitacao) : Bool :=
  match e with
  | .tipos => pred_tipos f x
  | .status => pred_status f x
  | .ufs => pred_ufs f x
  | .cidades => pred_cidades f x
  | .valor_min => pred_valor_min f x
  | .valor_max => pred_valor_max f x
  | .data_inicio => pred_data_inicio f x
  | .data_fim => pred_data_fim f x
  | .texto => pred_texto_busca f x

/-- The fixed source order of the nine steps (src/main.py 381-422). -/
def ordem_padrao : List EtapaFiltro :=
  [.tipos, .status, .ufs, .cidades, .valor_min, .valor_max,
   .data_inicio, .data_fim, .texto]

/-- Run the narrowing steps over a record list in a chosen order. -/
def aplicar_na_ordem (f : Filtros) (ord : List EtapaFiltro) (R : List Licitacao) :
    List Licitacao :=
  ord.foldl (fun acc e => aplicar_etapa f e acc) R

theorem aplicar_etapa_eq (f : Filtros) (e : EtapaFiltro) (l : List Licitacao) :
    aplicar_etapa f e l = l.filter (etapa_pred f e) := by
  cases e <;>
    simp only [aplicar_etapa, filtro_tipos_eq, filtro_status_eq,
      filtro_ufs_eq, filtro_cidades_eq, filtro_valor_min_eq, filtro_valor_max_eq,
      filtro_data_inicio_eq, filtro_data_fim_eq, filtro_texto_eq] <;>
    exact List.filter_congr (fun x _ => rfl)

theorem aplicar_na_ordem_eq_filter (f : Filtros) :
    ∀ (ord : List EtapaFiltro) (R : List Licitacao),
      aplicar_na_ordem f ord R = R.filter (fun x => ord.all (fun e => etapa_pred f e x)) := by
  intro ord
  induction ord with
  | nil => intro R; simp [aplicar_na_ordem]
  | cons e resto ih =>
      intro R
      have passo : aplicar_na_ordem f (e :: resto) R
          = aplicar_na_ordem f resto (aplicar_etapa f e R) := rfl
      rw [passo, aplicar_etapa_eq, ih, List.filter_filter]
      refine List.filter_congr (fun x _ => ?_)
      simp [List.all_cons, Bool.and_comm]

/-- The standard order recovers the cascade as written in the source. -/
theorem aplicar_na_ordem_padrao (f : Filtros) (R : List Licitacao) :
    aplicar_na_ordem f ordem_padrao R = aplicar_filtros f R := rfl

theorem perm_all_eq {l1 l2 : List EtapaFiltro} (h : l1.Perm l2)
    (g : EtapaFiltro → Bool) : l1.all g = l2.all g := by
  have hiff : l1.all g = true ↔ l2.all g = true := by
    simp [List.all_eq_true, h.mem_iff]
  cases h1 : l1.all g
  · cases h2 : l2.all g
    · rfl
    · rw [← hiff.mpr h2, h1]
  · rw [hiff.mp h1]

theorem lookup_conta_chave (k k1 : String) :
    ∀ (m : List (String × Nat)),
      (conta_chave m k1).lookup k =
        if k1 = k then
          match m.lookup k with
          | some n => some (n + 1)
          | none => some 1
        else m.lookup k := by
  intro m
  induction m with
  | nil =>
      by_cases h : k1 = k
      · subst h; simp [conta_chave, List.lookup]
      · have hb : (k == k1) = false := by
          rw [beq_eq_false_iff_ne]; exact fun hx => h hx.symm
        simp [conta_chave, List.lookup, h, hb]
  | cons par resto ih =>
      obtain ⟨k2, v⟩ := par
      by_cases h12 : k2 = k1
      · subst h12
        simp only [conta_chave, if_pos rfl]
        by_cases hk : k2 = k
        · subst hk; simp [List.lookup]
        · have hb : (k == k2) = false := by
            rw [beq_eq_false_iff_ne]; exact fun hx => hk hx.symm
          simp [List.lookup, hb, hk]
      · simp only [conta_chave, if_neg h12]
        by_cases hk : k2 = k
        · subst hk
          have hn : ¬ k1 = k2 := fun hx => h12 hx.symm
          simp [List.lookup, hn]
        · have hb : (k == k2) = false := by
            rw [beq_eq_false_iff_ne]; exact fun hx => hk hx.symm
          simp [List.lookup, hb, ih]

theorem lookup_contar_por_aux (proj : Licitacao → String) (k : String) :
    ∀ (ls : List Licitacao) (m : List (String × Nat)),
      (ls.foldl (fun m x => conta_chave m (proj x)) m).lookup k =
        match m.lookup k with
        | some n => some (n + ls.countP (fun x => proj x == k))
        | none =>
            if ls.countP (fun x => proj x == k) = 0 then none
            else some (ls.countP (fun x => proj x == k)) := by
  intro ls
  induction ls with
  | nil => intro m; cases h : m.lookup k <;> simp [List.foldl_nil, List.countP_nil, h]
  | cons x resto ih =>
      intro m
      have passo : (x :: resto).foldl (fun m x => conta_chave m (proj x)) m
          = resto.foldl (fun m x => conta_chave m (proj x)) (conta_chave m (proj x)) := rfl
      rw [passo, ih, lookup_conta_chave]
      by_cases hx : proj x = k
      · have hxb : (proj x == k) = true := by rw [beq_iff_eq]; exact hx
        cases h : m.lookup k <;>
          simp [hx, h, List.countP_cons, hxb, Nat.add_comm, Nat.add_assoc,
            Nat.add_left_comm]
      · have hxb : (proj x == k) = false := by rw [beq_eq_false_iff_ne]; exact hx
        cases h : m.lookup k <;> simp [hx, h, List.countP_cons, hxb]

/-- Lookup characterization of the grouped counts: a key is present
exactly when it is observed, and then carries its occurrence count. -/
theorem lookup_contar_por (proj : Licitacao → String) (ls : List Licitacao) (k : String) :
    (contar_por proj ls).lookup k =
      if ls.countP (fun x => proj x == k) = 0 then none
      else some (ls.countP (fun x => proj x == k)) := by
  unfold contar_por
  rw [lookup_contar_por_aux]
  rfl

/-- Criteria selecting only pregao records (used to instantiate the
universally quantified claims at a concrete input). -/
def filtros_so_pregao : Filtros :=
  ⟨some [.pregao], none, none, none, none, none, none, none, none⟩

/-- Criteria with only a maximum value bound of 100. -/
def filtros_max_100 : Filtros :=
  ⟨none, none, none, none, none, some 100, none, none, none⟩

/-- Criteria with only a minimum value bound of 0. -/
def filtros_min_0 : Filtros :=
  ⟨none, none, none, none, some 0, none, none, none, none⟩

/-- A record whose valor_estimado key is absent. -/
def licitacao_sem_valor : Licitacao :=
  ⟨9, "009/2024", .pregao, "Objeto sem valor estimado", "Orgao de teste",
   .aberta, none, 20240101, none, .SP, "São Paulo", none, none⟩

/-- A raw item whose modalidadeContratacao holds a number, so the
.upper() call inside mapear_tipo_pncp raises and the item is skipped. -/
def item_ruim : RawItem := [("modalidadeContratacao", RawValue.num 5)]

/-- C2: every record in the matched working set of filter(R, C) (the
set the nine conjunctive steps leave, of which total is the length and
the page a slice) satisfies every predicate present in C, and every
record of R outside it violates at least one present predicate. -/
theorem claim_C2 (R : List Licitacao) (f : Filtros) :
    (∀ x ∈ aplicar_filtros f R,
        pred_tipos f x = true ∧ pred_status f x = true ∧ pred_ufs f x = true ∧
        pred_cidades f x = true ∧ pred_valor_min f x = true ∧
        pred_valor_max f x = true ∧ pred_data_inicio f x = true ∧
        pred_data_fim f x = true ∧ pred_texto_busca f x = true) ∧
    (∀ x ∈ R, x ∉ aplicar_filtros f R →
        (pred_tipos f x = false ∨ pred_status f x = false ∨ pred_ufs f x = false ∨
         pred_cidades f x = false ∨ pred_valor_min f x = false ∨
         pred_valor_max f x = false ∨ pred_data_inicio f x = false ∨
         pred_data_fim f x = false ∨ pred_texto_busca f x = false)) := by
  have taut_pos : ∀ p1 p2 p3 p4 p5 p6 p7 p8 p9 : Bool,
      (p1 && p2 && p3 && p4 && p5 && p6 && p7 && p8 && p9) = true →
      (p1 = true ∧ p2 = true ∧ p3 = true ∧ p4 = true ∧ p5 = true ∧ p6 = true ∧
       p7 = true ∧ p8 = true ∧ p9 = true) := by
    intro p1 p2 p3 p4 p5 p6 p7 p8 p9 h
    simp only [Bool.and_eq_true] at h
    exact ⟨h.1.1.1.1.1.1.1.1, h.1.1.1.1.1.1.1.2, h.1.1.1.1.1.1.2, h.1.1.1.1.1.2,
      h.1.1.1.1.2, h.1.1.1.2, h.1.1.2, h.1.2, h.2⟩
  have taut_neg : ∀ p1 p2 p3 p4 p5 p6 p7 p8 p9 : Bool,
      (p1 && p2 && p3 && p4 && p5 && p6 && p7 && p8 && p9) = false →
      (p1 = false ∨ p2 = false ∨ p3 = false ∨ p4 = false ∨ p5 = false ∨
       p6 = false ∨ p7 = false ∨ p8 = false ∨ p9 = false) := by
    have verd : ∀ a : Bool, a ≠ false → a = true := by
      intro a ha
      cases a
      · exact absurd rfl ha
      · rfl
    intro p1 p2 p3 p4 p5 p6 p7 p8 p9 h
    by_contra hcon
    push_neg at hcon
    obtain ⟨n1, n2, n3, n4, n5, n6, n7, n8, n9⟩ := hcon
    rw [verd _ n1, verd _ n2, verd _ n3, verd _ n4, verd _ n5, verd _ n6,
      verd _ n7, verd _ n8, verd _ n9] at h
    simp at h
  constructor
  · intro x hx
    rw [aplicar_filtros_eq_filter, List.mem_filter] at hx
    have hp : passa_filtros f x = true := hx.2
    unfold passa_filtros at hp
    exact taut_pos _ _ _ _ _ _ _ _ _ hp
  · intro x hxR hnot
    rw [aplicar_filtros_eq_filter] at hnot
    have hfalse : passa_filtros f x = false := by
      cases hp : passa_filtros f x
      · rfl
      · exact absurd (List.mem_filter.mpr ⟨hxR, hp⟩) hnot
    unfold passa_filtros at hfalse
    exact taut_neg _ _ _ _ _ _ _ _ _ hfalse

/-- C2 witness: the first mock record is in the matched set of the
only-pregao criteria and satisfies all nine step predicates. -/
theorem claim_C2_witness :
    pred_tipos filtros_so_pregao licitacao_mock_1 = true ∧
    pred_status filtros_so_pregao licitacao_mock_1 = true ∧
    pred_ufs filtros_so_pregao licitacao_mock_1 = true ∧
    pred_cidades filtros_so_pregao licitacao_mock_1 = true ∧
    pred_valor_min filtros_so_pregao licitacao_mock_1 = true ∧
    pred_valor_max filtros_so_pregao licitacao_mock_1 = true ∧
    pred_data_inicio filtros_so_pregao licitacao_mock_1 = true ∧
    pred_data_fim filtros_so_pregao licitacao_mock_1 = true ∧
    pred_texto_busca filtros_so_pregao licitacao_mock_1 = true :=
  (claim_C2 MOCK_LICITACOES filtros_so_pregao).1 licitacao_mock_1 (by decide)

/-- C3: the total returned by filtrar_licitacoes is the number of
records satisfying all present predicates, for every offset and limit;
with no criteria present it is the collection length. -/
theorem claim_C3 (R : List Licitacao) (f : Filtros) (limite offset : Nat) :
    (filtrar_licitacoes R f limite offset).2 = (R.filter (passa_filtros f)).length ∧
    (f = filtros_vazios → (filtrar_licitacoes R f limite offset).2 = R.length) := by
  have htot : (filtrar_licitacoes R f limite offset).2
      = (R.filter (passa_filtros f)).length := by
    unfold filtrar_licitacoes
    rw [aplicar_filtros_eq_filter]
  refine ⟨htot, fun hf => ?_⟩
  subst hf
  rw [htot, List.filter_congr (fun x _ => passa_filtros_vazios x), List.filter_true]

/-- C3 witness: with no criteria and a page of size 2 starting at 1,
the total still reports all 5 mock records. -/
theorem claim_C3_witness :
    (filtrar_licitacoes MOCK_LICITACOES filtros_vazios 2 1).2 = MOCK_LICITACOES.length :=
  (claim_C3 MOCK_LICITACOES filtros_vazios 2 1).2 rfl

/-- C4: the page has length max(0, min(limit, len - offset)) for
offset within the filtered working set, and is empty (not an error)
beyond it. -/
theorem claim_C4 (R : List Licitacao) (f : Filtros) (offset limite : Nat)
    (hlim : 0 < limite) :
    (offset ≤ (R.filter (passa_filtros f)).length →
      ((filtrar_licitacoes R f limite offset).1.length : Int)
        = max 0 (min (limite : Int)
            (((R.filter (passa_filtros f)).length : Int) - (offset : Int)))) ∧
    ((R.filter (passa_filtros f)).length < offset →
      (filtrar_licitacoes R f limite offset).1 = []) := by
  have hpage : (filtrar_licitacoes R f limite offset).1
      = ((R.filter (passa_filtros f)).drop offset).take limite := by
    unfold filtrar_licitacoes
    rw [aplicar_filtros_eq_filter]
  constructor
  · intro hoff
    rw [hpage]
    have hlen : (((R.filter (passa_filtros f)).drop offset).take limite).length
        = min limite ((R.filter (passa_filtros f)).length - offset) := by
      simp [List.length_take, List.length_drop]
    rw [hlen]
    omega
  · intro hlt
    rw [hpage, List.drop_eq_nil_of_le (Nat.le_of_lt hlt), List.take_nil]

/-- C4 witness: no criteria, limit 2, offset 4 over the 5 mocks gives
a page of length min(2, 5-4) = 1. -/
theorem claim_C4_witness :
    ((filtrar_licitacoes MOCK_LICITACOES filtros_vazios 2 4).1.length : Int)
      = max 0 (min ((2 : Nat) : Int)
          (((MOCK_LICITACOES.filter (passa_filtros filtros_vazios)).length : Int)
            - ((4 : Nat) : Int))) :=
  (claim_C4 MOCK_LICITACOES filtros_vazios 4 2 (by decide)).1 (by decide)

/-- C7: running the nine narrowing steps in any permutation of the
fixed source order yields the same matched list and the same total. -/
theorem claim_C7 (f : Filtros) (R : List Licitacao) (ord : List EtapaFiltro)
    (h : ord.Perm ordem_padrao) :
    aplicar_na_ordem f ord R = aplicar_filtros f R ∧
    (aplicar_na_ordem f ord R).length = (aplicar_filtros f R).length := by
  have hmain : aplicar_na_ordem f ord R = aplicar_filtros f R := by
    rw [aplicar_na_ordem_eq_filter, ← aplicar_na_ordem_padrao f R,
      aplicar_na_ordem_eq_filter]
    exact List.filter_congr (fun x _ => perm_all_eq h _)
  exact ⟨hmain, by rw [hmain]⟩

/-- C7 witness: the reversed step order gives the same matched list on
the mock set with the only-pregao criteria. -/
theorem claim_C7_witness :
    aplicar_na_ordem filtros_so_pregao ordem_padrao.reverse MOCK_LICITACOES
      = aplicar_filtros filtros_so_pregao MOCK_LICITACOES :=
  (claim_C7 filtros_so_pregao MOCK_LICITACOES ordem_padrao.reverse
    (List.reverse_perm ordem_padrao)).1

/-- C10: the POST /licitacoes/buscar handler always runs the filter
engine with the default limit 100 and offset 0 and performs no sort:
its data is the first at-most-100 matching mock records in original
collection order, and its total the full match count. -/
theorem claim_C10 (filtros : Filtros) :
    buscar_licitacoes filtros
      = ((MOCK_LICITACOES.filter (passa_filtros filtros)).take 100,
         (MOCK_LICITACOES.filter (passa_filtros filtros)).length) := by
  unfold buscar_licitacoes filtrar_licitacoes
  rw [aplicar_filtros_eq_filter]
  simp [List.drop_zero]

/-- C9: the statistics over the 5 mock records report total 5, summed
value 18950000 and status counts aberta 3, em_andamento 1, encerrada 1;
and every grouped count maps exactly the observed key values to their
occurrence counts, including no unobserved key. -/
theorem claim_C9 :
    obter_estatisticas.total_licitacoes = 5 ∧
    obter_estatisticas.valor_total_estimado = 18950000 ∧
    obter_estatisticas.distribuicao_por_status
      = [("aberta", 3), ("em_andamento", 1), ("encerrada", 1)] ∧
    (∀ (proj : Licitacao → String) (ls : List Licitacao) (k : String),
      (contar_por proj ls).lookup k =
        if ls.countP (fun x => proj x == k) = 0 then none
        else some (ls.countP (fun x => proj x == k))) := by
  refine ⟨by decide, ?_, by decide, lookup_contar_por⟩
  show MOCK_LICITACOES.foldl (fun acc l => acc + l.valor_estimado.getD 0) 0 = 18950000
  simp [MOCK_LICITACOES, licitacao_mock_1, licitacao_mock_2, licitacao_mock_3,
    licitacao_mock_4, licitacao_mock_5]
  norm_num

/-- C5: normalization never drops an item for missing fields — an item
carrying none of the recognized keys still yields the one fallback
record, whose type is pregao and status aberta; both code lookups are
case-insensitive, and unrecognized or empty codes fall back to pregao
and aberta respectively. -/
theorem claim_C5 :
    (∀ item : RawItem,
        (∀ chave ∈ chaves_pncp, item.lookup chave = none) →
        extrair_item_pncp item = some registro_fallback) ∧
    registro_fallback.tipo = TipoLicitacao.pregao ∧
    registro_fallback.status = StatusLicitacao.aberta ∧
    (∀ s t : String, str_upper s = str_upper t →
        mapear_tipo_pncp s = mapear_tipo_pncp t) ∧
    (∀ s t : String, str_upper s = str_upper t →
        mapear_status_pncp s = mapear_status_pncp t) ∧
    (∀ s : String,
        str_upper s ∉ (["PREGAO", "CONCORRENCIA", "TOMADA_PRECOS", "CONVITE",
          "RDC", "CONCURSO", "LEILAO"] : List String) →
        mapear_tipo_pncp s = TipoLicitacao.pregao) ∧
    (∀ s : String,
        str_upper s ∉ (["ABERTA", "EM_ANDAMENTO", "ENCERRADA", "SUSPENSA",
          "CANCELADA"] : List String) →
        mapear_status_pncp s = StatusLicitacao.aberta) ∧
    mapear_tipo_pncp "" = TipoLicitacao.pregao ∧
    mapear_status_pncp "" = StatusLicitacao.aberta := by
  refine ⟨?_, rfl, rfl, ?_, ?_, ?_, ?_, rfl, rfl⟩
  · intro item h
    have h1 := h "sequencialLicitacao" (by simp [chaves_pncp])
    have h2 := h "numeroLicitacao" (by simp [chaves_pncp])
    have h3 := h "modalidadeContratacao" (by simp [chaves_pncp])
    have h4 := h "objetoLicitacao" (by simp [chaves_pncp])
    have h5 := h "nomeOrgao" (by simp [chaves_pncp])
    have h6 := h "situacaoLicitacao" (by simp [chaves_pncp])
    have h7 := h "valorEstimado" (by simp [chaves_pncp])
    have h8 := h "dataAbertura" (by simp [chaves_pncp])
    have h9 := h "dataEncerramento" (by simp [chaves_pncp])
    have h10 := h "ufOrgao" (by simp [chaves_pncp])
    have h11 := h "cidadeOrgao" (by simp [chaves_pncp])
    have h12 := h "linkEdital" (by simp [chaves_pncp])
    simp only [extrair_item_pncp, dict_get, h1, h2, h3, h4, h5, h6, h7, h8,
      h9, h10, h11, h12, Option.getD_none]
    rfl
  · intro s t h
    unfold mapear_tipo_pncp
    rw [h]
  · intro s t h
    unfold mapear_status_pncp
    rw [h]
  · intro s h
    unfold mapear_tipo_pncp
    split <;> simp_all
  · intro s h
    unfold mapear_status_pncp
    split <;> simp_all

/-- C5 witness: the all-defaults record for the keyless item, one
case-insensitivity instance, and one unrecognized-code fallback. -/
theorem claim_C5_witness :
    extrair_item_pncp [] = some registro_fallback ∧
    mapear_tipo_pncp "Pregao" = mapear_tipo_pncp "PREGAO" ∧
    mapear_status_pncp "encerrada" = mapear_status_pncp "ENCERRADA" ∧
    mapear_tipo_pncp "MODALIDADE_NOVA" = TipoLicitacao.pregao ∧
    mapear_status_pncp "SITUACAO_NOVA" = StatusLicitacao.aberta :=
  ⟨claim_C5.1 [] (fun chave _ => rfl),
   claim_C5.2.2.2.1 "Pregao" "PREGAO" (by decide),
   claim_C5.2.2.2.2.1 "encerrada" "ENCERRADA" (by decide),
   claim_C5.2.2.2.2.2.1 "MODALIDADE_NOVA" (by decide),
   claim_C5.2.2.2.2.2.2.1 "SITUACAO_NOVA" (by decide)⟩

/-- C6: a failing item is skipped alone and the batch continues —
normalization distributes over the item sequence, dropping exactly the
failing items, and the surviving records keep the input order. -/
theorem claim_C6 :
    (∀ d1 d2 : List RawItem,
        normalizar_dados_pncp ⟨some (d1 ++ d2)⟩
          = normalizar_dados_pncp ⟨some d1⟩ ++ normalizar_dados_pncp ⟨some d2⟩) ∧
    (∀ (pre post : List RawItem) (ruim : RawItem),
        extrair_item_pncp ruim = none →
        normalizar_dados_pncp ⟨some (pre ++ ruim :: post)⟩
          = normalizar_dados_pncp ⟨some pre⟩ ++ normalizar_dados_pncp ⟨some post⟩) := by
  constructor
  · intro d1 d2
    simp [normalizar_dados_pncp, List.filterMap_append]
  · intro pre post ruim h
    simp [normalizar_dados_pncp, List.filterMap_append, List.filterMap_cons, h]

/-- C6 witness: a batch holding one item with a numeric modality (whose
extraction raises) followed by one empty item normalizes to exactly the
empty item's record. -/
theorem claim_C6_witness :
    normalizar_dados_pncp ⟨some ([] ++ item_ruim :: [[]])⟩
      = normalizar_dados_pncp ⟨some []⟩ ++ normalizar_dados_pncp ⟨some [[]]⟩ :=
  claim_C6.2 [] [[]] item_ruim (by decide)

/-- C8 counterexample: with a maximum bound of 100 present, a record
with absent estimatedValue fails the maximum-bound predicate and is
excluded — the claim says such a record always passes it. -/
theorem claim_C8_counterexample :
    pred_valor_max filtros_max_100 licitacao_sem_valor = false ∧
    aplicar_filtros filtros_max_100 [licitacao_sem_valor] = [] := by decide

/-- C8 amended: a record with absent estimatedValue counts as 0 for a
present minimum bound (passing exactly when 0 meets the bound) and as
unbounded for a present maximum bound, hence always fails the
maximum-bound predicate. -/
theorem claim_C8_amended (f : Filtros) (x : Licitacao)
    (hx : x.valor_estimado = none) :
    (∀ m, f.valor_min = some m → pred_valor_min f x = decide ((0 : Valor) ≥ m)) ∧
    (∀ m, f.valor_max = some m → pred_valor_max f x = false) := by
  constructor
  · intro m hm
    unfold pred_valor_min
    rw [hm, hx]
    rfl
  · intro m hm
    unfold pred_valor_max
    rw [hm, hx]

/-- C8 witness: the valueless record passes a minimum bound of 0 (as
decide (0 >= 0)) and fails a maximum bound of 100. -/
theorem claim_C8_witness :
    pred_valor_min filtros_min_0 licitacao_sem_valor = decide ((0 : Valor) ≥ (0 : Valor)) ∧
    pred_valor_max filtros_max_100 licitacao_sem_valor = false :=
  ⟨(claim_C8_amended filtros_min_0 licitacao_sem_valor rfl).1 0 rfl,
   (claim_C8_amended filtros_max_100 licitacao_sem_valor rfl).2 100 rfl⟩

/-- C1 counterexample: sorting 5 mock records by valor_estimado
descending with limit 1, offset 0 — the handler returns the unsorted
first record of the page taken before sorting, not the maximum-value
record that ordering the whole filtered subset first would put there. -/
theorem claim_C1_counterexample :
    ¬ ((obter_licitacoes MOCK_LICITACOES filtros_vazios 1 0
          (some "valor_estimado") true).1
        = ((ordenar_campo "valor_estimado" true
            (MOCK_LICITACOES.filter (passa_filtros filtros_vazios))).drop 0).take 1) := by
  decide

/-- C1 amended: for each of the three allowed sort fields, the handler
returns the page obtained by slicing the filtered subset at
[offset, offset+limit) FIRST and then stable-sorting only that page by
the selected field and direction (and the pre-pagination total). -/
theorem claim_C1_amended (R : List Licitacao) (f : Filtros) (limite offset : Nat)
    (campo : String) (ordem_desc : Bool)
    (hcampo : campo ∈ (["data_abertura", "valor_estimado", "numero"] : List String)) :
    obter_licitacoes R f limite offset (some campo) ordem_desc
      = (ordenar_campo campo ordem_desc
          (((R.filter (passa_filtros f)).drop offset).take limite),
         (R.filter (passa_filtros f)).length) := by
  unfold obter_licitacoes filtrar_licitacoes
  rw [aplicar_filtros_eq_filter]
  simp [hcampo]

/-- C1 witness: sorting the page by numero at limit 2, offset 1 over
the mock set matches the slice-then-sort formula. -/
theorem claim_C1_witness :
    obter_licitacoes MOCK_LICITACOES filtros_vazios 2 1 (some "numero") false
      = (ordenar_campo "numero" false
          (((MOCK_LICITACOES.filter (passa_filtros filtros_vazios)).drop 1).take 2),
         (MOCK_LICITACOES.filter (passa_filtros filtros_vazios)).length) :=
  claim_C1_amended MOCK_LICITACOES filtros_vazios 2 1 "numero" false (by decide)

